import Mathlib

/-!
Verification development for the pinhole-camera Bragg-angle correction module
(hexrd.xrdutil.phutil).  The module under verification provides two physical
correction models (sample-layer standoff and pinhole-as-extended-source), each
with a per-point evaluator and a per-instrument map evaluator, plus two
mutable parameter-holder wrapper classes.

The detector model, the instrument model and the ray-to-angle geometry
primitive are external collaborators of the module (they live outside the
verified source tree); they are modelled here from their interface
description: a detector converts detector-plane Cartesian coordinates to
polar diffraction angles (2-theta, eta), optionally applying its own internal
distortion, exposes a rotation matrix, translation vector, beam and azimuth
reference vectors, and a per-pixel coordinate grid with a matching per-pixel
angle grid; the geometry primitive returns the diffraction angles of a ray
emitted from a displaced origin.  NumPy row-wise vectorised arithmetic is
embedded as per-row List.map computations over real numbers.
-/

namespace Phutil

/-- A 3-vector of reals (a row of an (n, 3) NumPy array). -/
structure V3 where
  x : ℝ
  y : ℝ
  z : ℝ

/-- A 3x3 matrix of reals, stored by rows. -/
structure M3 where
  r0 : V3
  r1 : V3
  r2 : V3

def dotV (a b : V3) : ℝ := a.x * b.x + a.y * b.y + a.z * b.z

def addV (a b : V3) : V3 := ⟨a.x + b.x, a.y + b.y, a.z + b.z⟩

def subV (a b : V3) : V3 := ⟨a.x - b.x, a.y - b.y, a.z - b.z⟩

def smulV (c : ℝ) (a : V3) : V3 := ⟨c * a.x, c * a.y, c * a.z⟩

def negV (a : V3) : V3 := ⟨-a.x, -a.y, -a.z⟩

def crossV (a b : V3) : V3 :=
  ⟨a.y * b.z - a.z * b.y, a.z * b.x - a.x * b.z, a.x * b.y - a.y * b.x⟩

/-- Matrix-vector product: row i of the result is the dot product of row i
with the vector (NumPy np.dot(m, v), equivalently a row of np.dot(crds, m.T)). -/
def matVec (m : M3) (v : V3) : V3 := ⟨dotV m.r0 v, dotV m.r1 v, dotV m.r2 v⟩

/-- Euclidean norm of a 3-vector. -/
noncomputable def normV (a : V3) : ℝ := Real.sqrt (dotV a a)

/-- Componentwise division by the Euclidean norm
(hexrd.transforms.xfcapi.unitRowVector applied to one row). -/
noncomputable def unitV (a : V3) : V3 :=
  ⟨a.x / normV a, a.y / normV a, a.z / normV a⟩

/-- The canonical downward beam vector, hexrd.constants.beam_vec = [0, 0, -1]. -/
def ct_beam_vec : V3 := ⟨0, 0, -1⟩

/-- hexrd.constants.identity_3x3. -/
def ct_identity_3x3 : M3 := ⟨⟨1, 0, 0⟩, ⟨0, 1, 0⟩, ⟨0, 0, 1⟩⟩

/-- hexrd.constants.zeros_3. -/
def ct_zeros_3 : V3 := ⟨0, 0, 0⟩

/-- Two-argument arctangent, the azimuth of the point (x, y) in the plane. -/
noncomputable def atan2 (y x : ℝ) : ℝ :=
  if 0 < x then Real.arctan (y / x)
  else if x < 0 then
    (if 0 ≤ y then Real.arctan (y / x) + Real.pi else Real.arctan (y / x) - Real.pi)
  else if 0 < y then Real.pi / 2
  else if y < 0 then -(Real.pi / 2)
  else 0

/-- Modelled from the spec: the ray-to-angle geometry primitive
(hexrd.transforms.xfcapi.detectorXYToGvec, outside the verified source tree).
Given a detector-plane point, the detector orientation rMat_d and position
tVec_d, a sample frame (rMat_s, tVec_s), a ray-origin offset tVec_c, and
beam/azimuth reference vectors, it returns the diffraction angles
(two-theta, eta) of the ray from the displaced origin to the detector point:
two-theta is the angle between that ray and the beam propagation direction,
and eta is the azimuth of the ray about the beam axis measured from the
azimuthal reference vector. -/
noncomputable def detectorXYToGvec (xy : ℝ × ℝ) (rMat_d rMat_s : M3)
    (tVec_d tVec_s tVec_c : V3) (beamVec etaVec : V3) : ℝ × ℝ :=
  let pLab := addV (matVec rMat_d ⟨xy.1, xy.2, 0⟩) tVec_d
  let cLab := addV (matVec rMat_s tVec_c) tVec_s
  let dHat := unitV (subV pLab cLab)
  let bHat := unitV beamVec
  let tth := Real.arccos (dotV dHat bHat)
  let zHat := negV bHat
  let eHat1 := unitV (subV etaVec (smulV (dotV etaVec zHat) zHat))
  let eHat2 := crossV zHat eHat1
  (tth, atan2 (dotV dHat eHat2) (dotV dHat eHat1))

/-- Modelled from the spec: the external planar detector collaborator
(hexrd.instrument.PlanarDetector, outside the verified source tree).  It
carries an orientation matrix, a translation vector, beam and azimuthal
reference vectors, an internal panel-distortion map, and a pixel grid of
rows x cols pixel-center coordinates stored flattened in row-major order. -/
structure Detector where
  rmat : M3
  tvec : V3
  bvec : V3
  evec : V3
  distortion : ℝ × ℝ → ℝ × ℝ
  rows : ℕ
  cols : ℕ
  pixel_coords : List (ℝ × ℝ)

/-- Modelled from the spec: detector conversion of one detector-plane
Cartesian point to polar diffraction angles with identity sample frame and
zero crystal translation, optionally applying the internal panel distortion
first (PlanarDetector.cart_to_angles applied to a single row). -/
noncomputable def cart_to_angles_pt (det : Detector) (xy : ℝ × ℝ)
    (apply_distortion : Bool) : ℝ × ℝ :=
  let xyd := if apply_distortion then det.distortion xy else xy
  detectorXYToGvec xyd det.rmat ct_identity_3x3 det.tvec ct_zeros_3 ct_zeros_3
    det.bvec det.evec

/-- Modelled from the spec: the per-pixel angle grid matching the per-pixel
coordinate grid (PlanarDetector.pixel_angles, flattened): the diffraction
angles of each pixel-center coordinate, with the internal distortion
applied. -/
noncomputable def Detector.pixel_angles (det : Detector) : List (ℝ × ℝ) :=
  det.pixel_coords.map (fun xy => cart_to_angles_pt det xy true)

/-- Modelled from the spec: the instrument collaborator, a keyed collection
of detectors sharing a beam vector, an azimuthal reference vector and a
source-to-pinhole distance. -/
structure Instrument where
  beam_vector : V3
  eta_vector : V3
  source_distance : ℝ
  detectors : List (String × Detector)

/-- Modelled from the spec: the structural well-formedness of an instrument,
direct from its interface description: detector keys are unique (a Python
dict), every detector shares the instrument beam and azimuthal reference
vectors, and each flattened pixel-coordinate grid has exactly
rows x cols entries. -/
def Instrument.wf (instr : Instrument) : Prop :=
  (instr.detectors.map Prod.fst).Nodup ∧
  ∀ kd ∈ instr.detectors,
    kd.2.bvec = instr.beam_vector ∧ kd.2.evec = instr.eta_vector ∧
    kd.2.pixel_coords.length = kd.2.rows * kd.2.cols

/-- Sample-layer Bragg-angle distortion for a batch of detector points
(tth_corr_sample_layer).  The NumPy column arithmetic of the source is
embedded row by row: for each input point the nominal angles are queried
with distortion applied, the point is lifted to the lab frame with a zero
third coordinate, cos_beta is minus the z-component of the unit direction,
and the correction angle is arctan(sin tth / (source_distance * cos_beta / zs
- cos tth)) with zs = layer_standoff + 0.5 * layer_thickness
+ 0.5 * pinhole_thickness. -/
noncomputable def tth_corr_sample_layer (detector : Detector)
    (xy_pts : List (ℝ × ℝ))
    (layer_standoff layer_thickness pinhole_thickness source_distance : ℝ)
    (return_nominal : Bool) : List (ℝ × ℝ) :=
  let zs := layer_standoff + 0.5 * layer_thickness + 0.5 * pinhole_thickness
  xy_pts.map (fun xy =>
    let ref_ang := cart_to_angles_pt detector xy true
    let ref_tth := ref_ang.1
    let dhat := unitV (addV (matVec detector.rmat ⟨xy.1, xy.2, 0⟩) detector.tvec)
    let cos_beta := -dhat.z
    let tth_corr := Real.arctan
      (Real.sin ref_tth / (source_distance * cos_beta / zs - Real.cos ref_tth))
    if return_nominal then (ref_tth - tth_corr, ref_ang.2)
    else (-tth_corr, ref_ang.2))

/-- Sample-layer Bragg-angle distortion fields for a whole instrument
(tth_corr_map_sample_layer).  For each detector the per-pixel angle grid and
pixel-center coordinates are zipped, the same cos_beta and arctan formula as
the point evaluator is evaluated at every pixel with the source distance
taken from the instrument, and the resulting flat field is returned per
detector key (the reshape to the 2-D pixel-grid shape is captured by the
length invariant rows x cols). -/
noncomputable def tth_corr_map_sample_layer (instrument : Instrument)
    (layer_standoff layer_thickness pinhole_thickness : ℝ) :
    List (String × List ℝ) :=
  let zs := layer_standoff + 0.5 * layer_thickness + 0.5 * pinhole_thickness
  instrument.detectors.map (fun kd =>
    (kd.1,
      (kd.2.pixel_coords.zip kd.2.pixel_angles).map (fun pa =>
        let dhat := unitV (addV (matVec kd.2.rmat ⟨pa.1.1, pa.1.2, 0⟩) kd.2.tvec)
        let cos_beta := -dhat.z
        Real.arctan (Real.sin pa.2.1 /
          (instrument.source_distance * cos_beta / zs - Real.cos pa.2.1)))))

/-- Pinhole Bragg-angle distortion for a batch of detector points
(tth_corr_pinhole).  A deep copy of the detector with its beam vector reset
to the canonical downward beam vector supplies the reference
azimuth; the real detector supplies the nominal angles; then, per point, the
ray origin is displaced to -pinhole_radius * (cos ref_eta, sin ref_eta,
0.5 * pinhole_thickness) and the geometry primitive is called with the
own beam and azimuth reference vectors of the detector. -/
noncomputable def tth_corr_pinhole (detector : Detector)
    (xy_pts : List (ℝ × ℝ)) (pinhole_thickness pinhole_radius : ℝ)
    (return_nominal : Bool) : List (ℝ × ℝ) :=
  let cp_det : Detector := { detector with bvec := ct_beam_vec }
  xy_pts.map (fun pxy =>
    let ref_eta := (cart_to_angles_pt cp_det pxy true).2
    let nom_ang := cart_to_angles_pt detector pxy true
    let nom_tth := nom_ang.1
    let origin := smulV (-pinhole_radius)
      ⟨Real.cos ref_eta, Real.sin ref_eta, 0.5 * pinhole_thickness⟩
    let pin_tth := (detectorXYToGvec pxy detector.rmat ct_identity_3x3
      detector.tvec ct_zeros_3 origin detector.bvec detector.evec).1
    let tth_corr := pin_tth - nom_tth
    if return_nominal then (nom_tth - tth_corr, nom_ang.2)
    else (-tth_corr, nom_ang.2))

/-- Pinhole Bragg-angle distortion fields for a whole instrument
(tth_corr_map_pinhole).  A deep copy of the entire instrument has its beam
vector reset to the canonical downward beam vector, which propagates to
every panel of the copy; the per-pixel angle grid of each copied panel supplies
the reference azimuths, the real panel supplies the nominal per-pixel
two-theta, and per pixel the displaced-origin angle is computed by the
geometry primitive with the instrument beam and azimuth reference vectors,
its difference from the nominal two-theta forming the field. -/
noncomputable def tth_corr_map_pinhole (instrument : Instrument)
    (pinhole_thickness pinhole_radius : ℝ) : List (String × List ℝ) :=
  instrument.detectors.map (fun kd =>
    let det := kd.2
    let cp_det : Detector := { det with bvec := ct_beam_vec }
    (kd.1,
      (det.pixel_coords.zip cp_det.pixel_angles).map (fun pa =>
        let reta := pa.2.2
        let origin := smulV (-pinhole_radius)
          ⟨Real.cos reta, Real.sin reta, 0.5 * pinhole_thickness⟩
        let new_ptth := (detectorXYToGvec pa.1 det.rmat ct_identity_3x3
          det.tvec ct_zeros_3 origin
          instrument.beam_vector instrument.eta_vector).1
        let nom_ptth := (cart_to_angles_pt det pa.1 true).1
        new_ptth - nom_ptth)))

/-! ### Parameter-holder wrapper classes

The two wrapper classes of the source are dynamically typed Python objects:
their constructors store the given arguments verbatim in private attributes,
while the property setters validate (detector setter) or coerce to float
(scalar setters).  Python runtime values relevant to those code paths are
embedded as an inductive type, and each setter returns the post-assignment
state together with the exception it raised, if any: the Python assert and
the float() conversion both run before the attribute assignment, so on
failure the state is returned unchanged. -/

/-- A Python runtime value as seen by the wrapper classes: an int, a float,
None, a PlanarDetector instance, or some other object. -/
inductive PyVal where
  | pyInt (z : ℤ)
  | pyFloat (r : ℝ)
  | pyNone
  | planar (d : Detector)
  | obj (tag : String)

/-- Python isinstance(x, detector_classes) with
detector_classes = (PlanarDetector,). -/
def PyVal.isDetectorInstance : PyVal → Bool
  | .planar _ => true
  | _ => false

/-- Whether the value is a numeric scalar (Python int or float). -/
def PyVal.isNumeric : PyVal → Bool
  | .pyInt _ => true
  | .pyFloat _ => true
  | _ => false

/-- The real number underlying a numeric scalar (junk 0 otherwise). -/
noncomputable def PyVal.toReal : PyVal → ℝ
  | .pyInt z => z
  | .pyFloat r => r
  | _ => 0

/-- The exceptions raised by the wrapper setters: the failed assert of the
detector setter and the float() conversion failure of the scalar setters. -/
inductive PyErr where
  | assertionError
  | typeError

/-- Python float(x) on the embedded values: succeeds on numeric scalars,
raises on None and non-numeric objects. -/
noncomputable def pyfloat : PyVal → Except PyErr ℝ
  | .pyInt z => .ok z
  | .pyFloat r => .ok r
  | _ => .error .typeError

/-- Outcome of a Python property assignment: the state after the statement
and the exception it raised, if any. -/
structure SetResult (σ : Type) where
  state : σ
  error : Option PyErr

/-- The attribute record of SampleLayerDistortion. -/
structure SampleLayerDistortion where
  _detector : PyVal
  _standoff : PyVal
  _thickness : PyVal
  _ph_thickness : PyVal
  _source_dist : PyVal

/-- SampleLayerDistortion.__init__: stores the five arguments verbatim, with
no validation and no coercion. -/
def SampleLayerDistortion.init
    (detector layer_standoff layer_thickness pinhole_thickness source_distance :
      PyVal) : SampleLayerDistortion :=
  ⟨detector, layer_standoff, layer_thickness, pinhole_thickness, source_distance⟩

/-- The detector property setter of SampleLayerDistortion: asserts the value
is an allowed detector instance before assigning. -/
def SampleLayerDistortion.set_detector (s : SampleLayerDistortion) (x : PyVal) :
    SetResult SampleLayerDistortion :=
  if x.isDetectorInstance then ⟨{ s with _detector := x }, none⟩
  else ⟨s, some .assertionError⟩

/-- The standoff property setter: assigns float(x). -/
noncomputable def SampleLayerDistortion.set_standoff (s : SampleLayerDistortion)
    (x : PyVal) : SetResult SampleLayerDistortion :=
  match pyfloat x with
  | .ok r => ⟨{ s with _standoff := .pyFloat r }, none⟩
  | .error e => ⟨s, some e⟩

/-- The thickness property setter: assigns float(x). -/
noncomputable def SampleLayerDistortion.set_thickness (s : SampleLayerDistortion)
    (x : PyVal) : SetResult SampleLayerDistortion :=
  match pyfloat x with
  | .ok r => ⟨{ s with _thickness := .pyFloat r }, none⟩
  | .error e => ⟨s, some e⟩

/-- The ph_thickness property setter: assigns float(x). -/
noncomputable def SampleLayerDistortion.set_ph_thickness
    (s : SampleLayerDistortion) (x : PyVal) : SetResult SampleLayerDistortion :=
  match pyfloat x with
  | .ok r => ⟨{ s with _ph_thickness := .pyFloat r }, none⟩
  | .error e => ⟨s, some e⟩

/-- The source_dist property setter: assigns float(x). -/
noncomputable def SampleLayerDistortion.set_source_dist
    (s : SampleLayerDistortion) (x : PyVal) : SetResult SampleLayerDistortion :=
  match pyfloat x with
  | .ok r => ⟨{ s with _source_dist := .pyFloat r }, none⟩
  | .error e => ⟨s, some e⟩

/-- The attribute record of PinholeDistortion. -/
structure PinholeDistortion where
  _detector : PyVal
  _ph_thickness : PyVal
  _ph_radius : PyVal

/-- PinholeDistortion.__init__: stores the three arguments verbatim, with no
validation and no coercion. -/
def PinholeDistortion.init (detector pinhole_thickness pinhole_radius : PyVal) :
    PinholeDistortion :=
  ⟨detector, pinhole_thickness, pinhole_radius⟩

/-- The detector property setter of PinholeDistortion: asserts the value is
an allowed detector instance before assigning. -/
def PinholeDistortion.set_detector (q : PinholeDistortion) (x : PyVal) :
    SetResult PinholeDistortion :=
  if x.isDetectorInstance then ⟨{ q with _detector := x }, none⟩
  else ⟨q, some .assertionError⟩

/-- The ph_thickness property setter: assigns float(x). -/
noncomputable def PinholeDistortion.set_ph_thickness (q : PinholeDistortion)
    (x : PyVal) : SetResult PinholeDistortion :=
  match pyfloat x with
  | .ok r => ⟨{ q with _ph_thickness := .pyFloat r }, none⟩
  | .error e => ⟨q, some e⟩

/-- The ph_radius property setter: assigns float(x). -/
noncomputable def PinholeDistortion.set_ph_radius (q : PinholeDistortion)
    (x : PyVal) : SetResult PinholeDistortion :=
  match pyfloat x with
  | .ok r => ⟨{ q with _ph_radius := .pyFloat r }, none⟩
  | .error e => ⟨q, some e⟩

/-! ### Helper lemmas -/

lemma zip_self_map {α β : Type} (l : List α) (f : α → β) :
    l.zip (l.map f) = l.map (fun a => (a, f a)) := by
  induction l with
  | nil => rfl
  | cons a t ih => simp [ih]

lemma length_tth_corr_sample_layer (det : Detector) (pts : List (ℝ × ℝ))
    (so th pt sd : ℝ) (rn : Bool) :
    (tth_corr_sample_layer det pts so th pt sd rn).length = pts.length := by
  simp [tth_corr_sample_layer]

lemma length_tth_corr_pinhole (det : Detector) (pts : List (ℝ × ℝ))
    (t r : ℝ) (rn : Bool) :
    (tth_corr_pinhole det pts t r rn).length = pts.length := by
  simp [tth_corr_pinhole]

lemma length_tth_corr_map_sample_layer (instr : Instrument) (so th pt : ℝ) :
    (tth_corr_map_sample_layer instr so th pt).length =
      instr.detectors.length := by
  simp [tth_corr_map_sample_layer]

lemma length_tth_corr_map_pinhole (instr : Instrument) (t r : ℝ) :
    (tth_corr_map_pinhole instr t r).length = instr.detectors.length := by
  simp [tth_corr_map_pinhole]

/-! ### Numeric helper lemmas -/

lemma one_lt_sqrt_two : (1:ℝ) < Real.sqrt 2 := by
  calc (1:ℝ) = Real.sqrt 1 := Real.sqrt_one.symm
    _ < Real.sqrt 2 := Real.sqrt_lt_sqrt (by norm_num) (by norm_num)

lemma sqrt_two_pos : (0:ℝ) < Real.sqrt 2 := lt_trans one_pos one_lt_sqrt_two

lemma inv_sqrt_two_lt_one : 1 / Real.sqrt 2 < 1 := by
  rw [div_lt_one sqrt_two_pos]
  exact one_lt_sqrt_two

lemma arccos_inv_sqrt_two_pos : 0 < Real.arccos (1 / Real.sqrt 2) :=
  Real.arccos_pos.mpr inv_sqrt_two_lt_one

lemma cos_arccos_inv_sqrt2 :
    Real.cos (Real.arccos (1 / Real.sqrt 2)) = 1 / Real.sqrt 2 := by
  have h0 : (0:ℝ) ≤ 1 / Real.sqrt 2 := by positivity
  exact Real.cos_arccos (by linarith) (le_of_lt inv_sqrt_two_lt_one)

lemma sin_arccos_inv_sqrt2 :
    Real.sin (Real.arccos (1 / Real.sqrt 2)) = 1 / Real.sqrt 2 := by
  rw [Real.sin_arccos]
  have h2 : Real.sqrt 2 ^ 2 = 2 := Real.sq_sqrt (by norm_num)
  have hsq : (1 / Real.sqrt 2 : ℝ) ^ 2 = 1 / 2 := by
    rw [div_pow, one_pow, h2]
  rw [hsq, show (1:ℝ) - 1/2 = 2⁻¹ by norm_num, Real.sqrt_inv, one_div]

/-! ### Concrete instances for witnesses and counterexamples -/

/-- A concrete well-formed detector: identity orientation, one unit behind
the origin along the beam, canonical beam and azimuth reference vectors, no
internal distortion, a single pixel centered at (1, 0). -/
noncomputable def detA : Detector :=
  { rmat := ct_identity_3x3, tvec := ⟨0, 0, -1⟩, bvec := ⟨0, 0, -1⟩,
    evec := ⟨1, 0, 0⟩, distortion := id, rows := 1, cols := 1,
    pixel_coords := [(1, 0)] }

/-- A concrete single-detector instrument around detA with source distance 2. -/
noncomputable def instrA : Instrument :=
  { beam_vector := ⟨0, 0, -1⟩, eta_vector := ⟨1, 0, 0⟩, source_distance := 2,
    detectors := [("d", detA)] }

/-- Like detA but with its single pixel centered on the beam axis at (0, 0). -/
noncomputable def detB : Detector :=
  { rmat := ct_identity_3x3, tvec := ⟨0, 0, -1⟩, bvec := ⟨0, 0, -1⟩,
    evec := ⟨1, 0, 0⟩, distortion := id, rows := 1, cols := 1,
    pixel_coords := [(0, 0)] }

/-- A concrete single-detector instrument around detB with source distance 2. -/
noncomputable def instrB : Instrument :=
  { beam_vector := ⟨0, 0, -1⟩, eta_vector := ⟨1, 0, 0⟩, source_distance := 2,
    detectors := [("d", detB)] }

/-- Like detB but with a nontrivial internal panel distortion shifting every
point one unit in x. -/
noncomputable def detC : Detector :=
  { rmat := ct_identity_3x3, tvec := ⟨0, 0, -1⟩, bvec := ⟨0, 0, -1⟩,
    evec := ⟨1, 0, 0⟩, distortion := fun p => (p.1 + 1, p.2), rows := 1,
    cols := 1, pixel_coords := [(0, 0)] }

/-! ### Claims -/

/-- C3: for both point evaluators, for every fixed detector, coordinate batch
and parameters, the first column of the return_nominal=true output equals the
nominal two-theta of each point plus the first column of the
return_nominal=false output of the same call (nominal = ref_tth + raw), and
the second (eta) column is identical in both outputs. -/
theorem C3_return_nominal_toggle (det : Detector) (pts : List (ℝ × ℝ))
    (so th pt sd t r : ℝ) (i : ℕ) (hi : i < pts.length) :
    (((tth_corr_sample_layer det pts so th pt sd true).get
        ⟨i, by rw [length_tth_corr_sample_layer]; exact hi⟩).1
      = (cart_to_angles_pt det (pts.get ⟨i, hi⟩) true).1
        + ((tth_corr_sample_layer det pts so th pt sd false).get
            ⟨i, by rw [length_tth_corr_sample_layer]; exact hi⟩).1)
    ∧ (((tth_corr_sample_layer det pts so th pt sd true).get
        ⟨i, by rw [length_tth_corr_sample_layer]; exact hi⟩).2
      = ((tth_corr_sample_layer det pts so th pt sd false).get
            ⟨i, by rw [length_tth_corr_sample_layer]; exact hi⟩).2)
    ∧ (((tth_corr_pinhole det pts t r true).get
        ⟨i, by rw [length_tth_corr_pinhole]; exact hi⟩).1
      = (cart_to_angles_pt det (pts.get ⟨i, hi⟩) true).1
        + ((tth_corr_pinhole det pts t r false).get
            ⟨i, by rw [length_tth_corr_pinhole]; exact hi⟩).1)
    ∧ (((tth_corr_pinhole det pts t r true).get
        ⟨i, by rw [length_tth_corr_pinhole]; exact hi⟩).2
      = ((tth_corr_pinhole det pts t r false).get
            ⟨i, by rw [length_tth_corr_pinhole]; exact hi⟩).2) := by
  refine ⟨?_, ?_, ?_, ?_⟩ <;>
    simp [tth_corr_sample_layer, tth_corr_pinhole, List.get_eq_getElem] <;>
    ring

/-- Witness for C3 at a concrete detector, batch and parameters. -/
theorem C3_witness :
    0 < ([((1:ℝ), (0:ℝ))]).length ∧
    ((((tth_corr_sample_layer detA [((1:ℝ), (0:ℝ))] 1 0 0 2 true).get
        ⟨0, by simp [length_tth_corr_sample_layer]⟩).1
      = (cart_to_angles_pt detA (([((1:ℝ), (0:ℝ))]).get ⟨0, by simp⟩) true).1
        + ((tth_corr_sample_layer detA [((1:ℝ), (0:ℝ))] 1 0 0 2 false).get
            ⟨0, by simp [length_tth_corr_sample_layer]⟩).1)
    ∧ (((tth_corr_sample_layer detA [((1:ℝ), (0:ℝ))] 1 0 0 2 true).get
        ⟨0, by simp [length_tth_corr_sample_layer]⟩).2
      = ((tth_corr_sample_layer detA [((1:ℝ), (0:ℝ))] 1 0 0 2 false).get
            ⟨0, by simp [length_tth_corr_sample_layer]⟩).2)
    ∧ (((tth_corr_pinhole detA [((1:ℝ), (0:ℝ))] 5 7 true).get
        ⟨0, by simp [length_tth_corr_pinhole]⟩).1
      = (cart_to_angles_pt detA (([((1:ℝ), (0:ℝ))]).get ⟨0, by simp⟩) true).1
        + ((tth_corr_pinhole detA [((1:ℝ), (0:ℝ))] 5 7 false).get
            ⟨0, by simp [length_tth_corr_pinhole]⟩).1)
    ∧ (((tth_corr_pinhole detA [((1:ℝ), (0:ℝ))] 5 7 true).get
        ⟨0, by simp [length_tth_corr_pinhole]⟩).2
      = ((tth_corr_pinhole detA [((1:ℝ), (0:ℝ))] 5 7 false).get
            ⟨0, by simp [length_tth_corr_pinhole]⟩).2)) :=
  ⟨by simp,
   C3_return_nominal_toggle detA [((1:ℝ), (0:ℝ))] 1 0 0 2 5 7 0 (by simp)⟩

/-- C5: for every coordinate batch and finite parameters,
tth_corr_sample_layer computes its correction term per row as
tth_corr = atan(sin tth_nom / (source_distance * cos_beta / zs - cos tth_nom))
with zs = standoff + thickness/2 + pinhole_thickness/2, tth_nom the nominal
two-theta of the point (internal distortion applied, identity sample frame)
and cos_beta the negated third component of the unit direction from the lab
origin to the point transformed into the lab frame by the detector rotation
and translation; the raw output row is (-tth_corr, eta). -/
theorem C5_sample_layer_closed_form (det : Detector) (pts : List (ℝ × ℝ))
    (so th pt sd : ℝ) (i : ℕ) (hi : i < pts.length) :
    (tth_corr_sample_layer det pts so th pt sd false).get
        ⟨i, by rw [length_tth_corr_sample_layer]; exact hi⟩
      = (-(Real.arctan (Real.sin ((cart_to_angles_pt det (pts.get ⟨i, hi⟩) true).1)
            / (sd * (-(unitV (addV (matVec det.rmat
                  ⟨(pts.get ⟨i, hi⟩).1, (pts.get ⟨i, hi⟩).2, 0⟩) det.tvec)).z)
                / (so + 0.5 * th + 0.5 * pt)
              - Real.cos ((cart_to_angles_pt det (pts.get ⟨i, hi⟩) true).1)))),
         (cart_to_angles_pt det (pts.get ⟨i, hi⟩) true).2) := by
  simp [tth_corr_sample_layer, List.get_eq_getElem]

/-- Witness for C5 at a concrete detector, batch and parameters. -/
theorem C5_witness :
    0 < ([((1:ℝ), (0:ℝ))]).length ∧
    (tth_corr_sample_layer detA [((1:ℝ), (0:ℝ))] 1 2 3 4 false).get
        ⟨0, by simp [length_tth_corr_sample_layer]⟩
      = (-(Real.arctan (Real.sin ((cart_to_angles_pt detA
              (([((1:ℝ), (0:ℝ))]).get ⟨0, by simp⟩) true).1)
            / (4 * (-(unitV (addV (matVec detA.rmat
                  ⟨(([((1:ℝ), (0:ℝ))]).get ⟨0, by simp⟩).1,
                   (([((1:ℝ), (0:ℝ))]).get ⟨0, by simp⟩).2, 0⟩) detA.tvec)).z)
                / (1 + 0.5 * 2 + 0.5 * 3)
              - Real.cos ((cart_to_angles_pt detA
                  (([((1:ℝ), (0:ℝ))]).get ⟨0, by simp⟩) true).1)))),
         (cart_to_angles_pt detA (([((1:ℝ), (0:ℝ))]).get ⟨0, by simp⟩) true).2) :=
  ⟨by simp, C5_sample_layer_closed_form detA [((1:ℝ), (0:ℝ))] 1 2 3 4 0 (by simp)⟩

/-- C6: for every input point, tth_corr_pinhole computes its displaced ray
origin as -pinhole_radius * (cos ref_eta, sin ref_eta, pinhole_thickness/2)
where ref_eta is the azimuth of the point from a deep-copied detector whose
beam vector is reset to the canonical downward beam vector, and passes the
real detector beam and azimuth-reference vectors to the ray/angle geometry
primitive with that origin; the raw output row is
(-(pin_tth - nom_tth), nom_eta). -/
theorem C6_pinhole_displaced_origin (det : Detector) (pts : List (ℝ × ℝ))
    (t r : ℝ) (i : ℕ) (hi : i < pts.length) :
    (tth_corr_pinhole det pts t r false).get
        ⟨i, by rw [length_tth_corr_pinhole]; exact hi⟩
      = (-((detectorXYToGvec (pts.get ⟨i, hi⟩) det.rmat ct_identity_3x3
            det.tvec ct_zeros_3
            (smulV (-r)
              ⟨Real.cos ((cart_to_angles_pt { det with bvec := ct_beam_vec }
                  (pts.get ⟨i, hi⟩) true).2),
               Real.sin ((cart_to_angles_pt { det with bvec := ct_beam_vec }
                  (pts.get ⟨i, hi⟩) true).2),
               0.5 * t⟩)
            det.bvec det.evec).1
          - (cart_to_angles_pt det (pts.get ⟨i, hi⟩) true).1),
         (cart_to_angles_pt det (pts.get ⟨i, hi⟩) true).2) := by
  simp [tth_corr_pinhole, List.get_eq_getElem]

/-- Witness for C6 at a concrete detector, batch and parameters. -/
theorem C6_witness :
    0 < ([((1:ℝ), (0:ℝ))]).length ∧
    (tth_corr_pinhole detA [((1:ℝ), (0:ℝ))] 3 2 false).get
        ⟨0, by simp [length_tth_corr_pinhole]⟩
      = (-((detectorXYToGvec (([((1:ℝ), (0:ℝ))]).get ⟨0, by simp⟩) detA.rmat
            ct_identity_3x3 detA.tvec ct_zeros_3
            (smulV (-2)
              ⟨Real.cos ((cart_to_angles_pt { detA with bvec := ct_beam_vec }
                  (([((1:ℝ), (0:ℝ))]).get ⟨0, by simp⟩) true).2),
               Real.sin ((cart_to_angles_pt { detA with bvec := ct_beam_vec }
                  (([((1:ℝ), (0:ℝ))]).get ⟨0, by simp⟩) true).2),
               0.5 * 3⟩)
            detA.bvec detA.evec).1
          - (cart_to_angles_pt detA (([((1:ℝ), (0:ℝ))]).get ⟨0, by simp⟩) true).1),
         (cart_to_angles_pt detA (([((1:ℝ), (0:ℝ))]).get ⟨0, by simp⟩) true).2) :=
  ⟨by simp, C6_pinhole_displaced_origin detA [((1:ℝ), (0:ℝ))] 3 2 0 (by simp)⟩

lemma instrA_wf : instrA.wf := by
  refine ⟨by simp [instrA], ?_⟩
  intro kd hkd
  simp only [instrA, List.mem_singleton] at hkd
  subst hkd
  exact ⟨rfl, rfl, by simp [detA]⟩

/-- C8: for every n x 2 input coordinate batch the two point evaluators
return an n x 2 batch, and for every well-formed instrument the two map
evaluators return a mapping with exactly one entry per detector key, each
entry holding exactly rows x cols values, the shape of the pixel
grid. -/
theorem C8_shape_invariants (det : Detector) (pts : List (ℝ × ℝ))
    (so th pt sd t r : ℝ) (rn : Bool) (instr : Instrument) (hwf : instr.wf) :
    (tth_corr_sample_layer det pts so th pt sd rn).length = pts.length ∧
    (tth_corr_pinhole det pts t r rn).length = pts.length ∧
    (tth_corr_map_sample_layer instr so th pt).map Prod.fst
      = instr.detectors.map Prod.fst ∧
    (tth_corr_map_pinhole instr t r).map Prod.fst
      = instr.detectors.map Prod.fst ∧
    ((tth_corr_map_sample_layer instr so th pt).map Prod.fst).Nodup ∧
    ((tth_corr_map_pinhole instr t r).map Prod.fst).Nodup ∧
    (∀ j (hj : j < instr.detectors.length),
      ((tth_corr_map_sample_layer instr so th pt).get
          ⟨j, by rw [length_tth_corr_map_sample_layer]; exact hj⟩).2.length
        = (instr.detectors.get ⟨j, hj⟩).2.rows
            * (instr.detectors.get ⟨j, hj⟩).2.cols ∧
      ((tth_corr_map_pinhole instr t r).get
          ⟨j, by rw [length_tth_corr_map_pinhole]; exact hj⟩).2.length
        = (instr.detectors.get ⟨j, hj⟩).2.rows
            * (instr.detectors.get ⟨j, hj⟩).2.cols) := by
  have hkeys1 : (tth_corr_map_sample_layer instr so th pt).map Prod.fst
      = instr.detectors.map Prod.fst := by
    simp [tth_corr_map_sample_layer, List.map_map, Function.comp]
  have hkeys2 : (tth_corr_map_pinhole instr t r).map Prod.fst
      = instr.detectors.map Prod.fst := by
    simp [tth_corr_map_pinhole, List.map_map, Function.comp]
  refine ⟨length_tth_corr_sample_layer det pts so th pt sd rn,
    length_tth_corr_pinhole det pts t r rn, hkeys1, hkeys2,
    hkeys1 ▸ hwf.1, hkeys2 ▸ hwf.1, ?_⟩
  intro j hj
  have hmem : instr.detectors.get ⟨j, hj⟩ ∈ instr.detectors :=
    instr.detectors.get_mem j hj
  have hlen := (hwf.2 _ hmem).2.2
  rw [List.get_eq_getElem] at hlen
  exact ⟨by simp [tth_corr_map_sample_layer, List.get_eq_getElem,
      Detector.pixel_angles, hlen],
    by simp [tth_corr_map_pinhole, List.get_eq_getElem,
      Detector.pixel_angles, hlen]⟩

/-- Witness for C8 at a concrete batch and a concrete well-formed
instrument. -/
theorem C8_witness :
    (tth_corr_map_sample_layer instrA 1 0 0).map Prod.fst
      = instrA.detectors.map Prod.fst :=
  (C8_shape_invariants detA [((1:ℝ), (0:ℝ))] 1 0 0 2 3 4 false instrA
    instrA_wf).2.2.1

/-- C9: through the detector property setter of either wrapper class,
assigning a value that is not an allowed detector instance raises
immediately at assignment and leaves the stored detector unchanged; through
the scalar property setters, a numeric value is stored coerced to floating
point, and a non-numeric value raises a value-conversion error at assignment
time, leaving the state unchanged. -/
theorem C9_setter_contracts (s : SampleLayerDistortion) (q : PinholeDistortion)
    (x : PyVal) :
    (x.isDetectorInstance = false →
      s.set_detector x = ⟨s, some .assertionError⟩ ∧
      q.set_detector x = ⟨q, some .assertionError⟩)
    ∧ (x.isNumeric = true →
      s.set_standoff x = ⟨{ s with _standoff := .pyFloat x.toReal }, none⟩ ∧
      s.set_thickness x = ⟨{ s with _thickness := .pyFloat x.toReal }, none⟩ ∧
      s.set_ph_thickness x
        = ⟨{ s with _ph_thickness := .pyFloat x.toReal }, none⟩ ∧
      s.set_source_dist x
        = ⟨{ s with _source_dist := .pyFloat x.toReal }, none⟩ ∧
      q.set_ph_thickness x
        = ⟨{ q with _ph_thickness := .pyFloat x.toReal }, none⟩ ∧
      q.set_ph_radius x = ⟨{ q with _ph_radius := .pyFloat x.toReal }, none⟩)
    ∧ (x.isNumeric = false →
      s.set_standoff x = ⟨s, some .typeError⟩ ∧
      s.set_thickness x = ⟨s, some .typeError⟩ ∧
      s.set_ph_thickness x = ⟨s, some .typeError⟩ ∧
      s.set_source_dist x = ⟨s, some .typeError⟩ ∧
      q.set_ph_thickness x = ⟨q, some .typeError⟩ ∧
      q.set_ph_radius x = ⟨q, some .typeError⟩) := by
  cases x <;>
    simp [SampleLayerDistortion.set_detector, PinholeDistortion.set_detector,
      SampleLayerDistortion.set_standoff, SampleLayerDistortion.set_thickness,
      SampleLayerDistortion.set_ph_thickness,
      SampleLayerDistortion.set_source_dist,
      PinholeDistortion.set_ph_thickness, PinholeDistortion.set_ph_radius,
      PyVal.isDetectorInstance, PyVal.isNumeric, PyVal.toReal, pyfloat]

/-- Witness for C9: a None detector assignment fails on both wrappers, an
integer is stored float-coerced, and a None scalar assignment fails. -/
theorem C9_witness :
    (PyVal.pyNone.isDetectorInstance = false ∧
      ((SampleLayerDistortion.init .pyNone .pyNone .pyNone .pyNone
          .pyNone).set_detector .pyNone
        = ⟨SampleLayerDistortion.init .pyNone .pyNone .pyNone .pyNone .pyNone,
           some .assertionError⟩ ∧
       (PinholeDistortion.init .pyNone .pyNone .pyNone).set_detector .pyNone
        = ⟨PinholeDistortion.init .pyNone .pyNone .pyNone,
           some .assertionError⟩))
    ∧ ((PyVal.pyInt 2).isNumeric = true ∧
      (SampleLayerDistortion.init .pyNone .pyNone .pyNone .pyNone
          .pyNone).set_standoff (.pyInt 2)
        = ⟨{ SampleLayerDistortion.init .pyNone .pyNone .pyNone .pyNone .pyNone
              with _standoff := .pyFloat (PyVal.pyInt 2).toReal }, none⟩)
    ∧ (PyVal.pyNone.isNumeric = false ∧
      (SampleLayerDistortion.init .pyNone .pyNone .pyNone .pyNone
          .pyNone).set_standoff .pyNone
        = ⟨SampleLayerDistortion.init .pyNone .pyNone .pyNone .pyNone .pyNone,
           some .typeError⟩) :=
  ⟨⟨rfl, (C9_setter_contracts (SampleLayerDistortion.init .pyNone .pyNone
      .pyNone .pyNone .pyNone) (PinholeDistortion.init .pyNone .pyNone .pyNone)
      .pyNone).1 rfl⟩,
   ⟨rfl, ((C9_setter_contracts (SampleLayerDistortion.init .pyNone .pyNone
      .pyNone .pyNone .pyNone) (PinholeDistortion.init .pyNone .pyNone .pyNone)
      (.pyInt 2)).2.1 rfl).1⟩,
   ⟨rfl, ((C9_setter_contracts (SampleLayerDistortion.init .pyNone .pyNone
      .pyNone .pyNone .pyNone) (PinholeDistortion.init .pyNone .pyNone .pyNone)
      .pyNone).2.2 rfl).1⟩⟩

/-- C10: the constructors of both wrapper classes perform no validation and
no coercion: constructed with arbitrary values, including a non-detector
object and non-numeric parameters, they succeed and store the arguments
verbatim; the detector-type check and the float coercion exist only in the
property setters. -/
theorem C10_constructors_store_verbatim (d a b c e : PyVal) :
    SampleLayerDistortion.init d a b c e
      = { _detector := d, _standoff := a, _thickness := b, _ph_thickness := c,
          _source_dist := e } ∧
    PinholeDistortion.init d a b
      = { _detector := d, _ph_thickness := a, _ph_radius := b } :=
  ⟨rfl, rfl⟩

/-- C1 (amended): for every instrument and detector, each entry of the
sample-layer correction field equals the NEGATION of the first column that
the point evaluator with return_nominal=false produces at the same pixel
center coordinates with the instrument source distance: the map stores
tth_corr itself while the raw column of the point evaluator stores -tth_corr. -/
theorem C1_map_negates_point_raw (instr : Instrument) (so th pt : ℝ)
    (j : ℕ) (hj : j < instr.detectors.length) :
    ((tth_corr_map_sample_layer instr so th pt).get
        ⟨j, by rw [length_tth_corr_map_sample_layer]; exact hj⟩).2
      = (tth_corr_sample_layer (instr.detectors.get ⟨j, hj⟩).2
          (instr.detectors.get ⟨j, hj⟩).2.pixel_coords so th pt
          instr.source_distance false).map (fun p => -p.1) := by
  simp [tth_corr_map_sample_layer, tth_corr_sample_layer,
    Detector.pixel_angles, zip_self_map, List.map_map, List.get_eq_getElem,
    Function.comp]

/-- C2 (amended): for every instrument whose detector shares the instrument
beam and azimuth reference vectors, each entry of the pinhole correction
field equals the NEGATION of the first column that the pinhole point
evaluator with return_nominal=false produces at the same pixel center
coordinates with the same thickness and radius: the map stores
pin_tth - nom_tth while the raw column of the point evaluator stores its
negation. -/
theorem C2_map_negates_point_raw (instr : Instrument) (t r : ℝ)
    (j : ℕ) (hj : j < instr.detectors.length)
    (hb : (instr.detectors.get ⟨j, hj⟩).2.bvec = instr.beam_vector)
    (he : (instr.detectors.get ⟨j, hj⟩).2.evec = instr.eta_vector) :
    ((tth_corr_map_pinhole instr t r).get
        ⟨j, by rw [length_tth_corr_map_pinhole]; exact hj⟩).2
      = (tth_corr_pinhole (instr.detectors.get ⟨j, hj⟩).2
          (instr.detectors.get ⟨j, hj⟩).2.pixel_coords t r false).map
            (fun p => -p.1) := by
  rw [List.get_eq_getElem] at hb he
  simp [tth_corr_map_pinhole, tth_corr_pinhole, Detector.pixel_angles,
    zip_self_map, List.map_map, List.get_eq_getElem, Function.comp, hb, he]

/-- Witness for the amended C1 at a concrete instrument. -/
theorem C1_witness :
    ((tth_corr_map_sample_layer instrA 1 0 0).get
        ⟨0, by rw [length_tth_corr_map_sample_layer]; simp [instrA]⟩).2
      = (tth_corr_sample_layer (instrA.detectors.get ⟨0, by simp [instrA]⟩).2
          (instrA.detectors.get ⟨0, by simp [instrA]⟩).2.pixel_coords 1 0 0
          instrA.source_distance false).map (fun p => -p.1) :=
  C1_map_negates_point_raw instrA 1 0 0 0 (by simp [instrA])

/-- Witness for the amended C2 at a concrete instrument. -/
theorem C2_witness :
    ((tth_corr_map_pinhole instrB 0 1).get
        ⟨0, by rw [length_tth_corr_map_pinhole]; simp [instrB]⟩).2
      = (tth_corr_pinhole (instrB.detectors.get ⟨0, by simp [instrB]⟩).2
          (instrB.detectors.get ⟨0, by simp [instrB]⟩).2.pixel_coords 0 1
          false).map (fun p => -p.1) :=
  C2_map_negates_point_raw instrB 0 1 0 (by simp [instrB]) rfl rfl

/-- Counterexample input for C4: the detector detC applies a nontrivial
internal distortion, so at pinhole_radius = 0 the nominal angles (computed
from the distortion-corrected coordinates) differ from the displaced-origin
angles (computed from the raw coordinates) and the correction is nonzero. -/
theorem C4_counterexample :
    ((tth_corr_pinhole detC [((0:ℝ), (0:ℝ))] 0 0 false).headI).1 ≠ 0 := by
  have hval : ((tth_corr_pinhole detC [((0:ℝ), (0:ℝ))] 0 0 false).headI).1
      = Real.arccos (1 / Real.sqrt 2) := by
    simp [tth_corr_pinhole, detC, cart_to_angles_pt, detectorXYToGvec,
      ct_identity_3x3, ct_zeros_3, ct_beam_vec, matVec, dotV, addV, subV,
      smulV, unitV, normV, negV, crossV]
    norm_num [Real.sqrt_one, Real.arccos_one]
    simp [neg_div, one_div]
  rw [hval]
  exact ne_of_gt arccos_inv_sqrt_two_pos

/-- C4 (amended): for every detector whose internal distortion fixes the
input point (in particular any distortion-free detector), every azimuth and
every pinhole_thickness, tth_corr_pinhole with pinhole_radius = 0 produces a
correction term that is exactly zero for that row: the displaced ray origin
collapses to the zero vector and the displaced-origin two-theta equals the
nominal two-theta. -/
theorem C4_zero_radius_zero_correction (det : Detector) (pts : List (ℝ × ℝ))
    (t : ℝ) (i : ℕ) (hi : i < pts.length)
    (hd : det.distortion (pts.get ⟨i, hi⟩) = pts.get ⟨i, hi⟩) :
    ((tth_corr_pinhole det pts t 0 false).get
        ⟨i, by rw [length_tth_corr_pinhole]; exact hi⟩).1 = 0 := by
  rw [List.get_eq_getElem] at hd
  simp [tth_corr_pinhole, cart_to_angles_pt, List.get_eq_getElem, hd, smulV,
    ct_zeros_3]

/-- Witness for the amended C4 at a concrete distortion-free detector. -/
theorem C4_witness :
    ((tth_corr_pinhole detA [((1:ℝ), (0:ℝ))] 5 0 false).get
        ⟨0, by simp [length_tth_corr_pinhole]⟩).1 = 0 :=
  C4_zero_radius_zero_correction detA [((1:ℝ), (0:ℝ))] 5 0 (by simp)
    (by simp [detA])

set_option maxHeartbeats 1000000 in
/-- Counterexample input for C1: at the single pixel (1, 0) of the concrete
instrument instrA (standoff 1, zero thicknesses, source distance 2), the
sample-layer map field holds +pi/4 while the first column of the point
evaluator with return_nominal=false at the same pixel center holds -pi/4:
the map stores tth_corr, not the raw correction term -tth_corr. -/
theorem C1_counterexample :
    (tth_corr_map_sample_layer instrA 1 0 0).headI.2.headI
      ≠ ((tth_corr_sample_layer detA detA.pixel_coords 1 0 0 2
          false).headI).1 := by
  have hmap : (tth_corr_map_sample_layer instrA 1 0 0).headI.2.headI
      = Real.pi / 4 := by
    simp [tth_corr_map_sample_layer, instrA, detA, Detector.pixel_angles,
      cart_to_angles_pt, detectorXYToGvec, ct_identity_3x3, ct_zeros_3,
      matVec, dotV, addV, subV, smulV, unitV, normV, negV, crossV]
    norm_num [Real.sqrt_one]
    have e1 : (-(-1 / Real.sqrt 2) : ℝ) = 1 / Real.sqrt 2 := by ring
    have e2 : (-(2 * (-1 / Real.sqrt 2)) : ℝ) = 2 / Real.sqrt 2 := by ring
    rw [e1, e2, cos_arccos_inv_sqrt2, sin_arccos_inv_sqrt2]
    have e3 : (2 / Real.sqrt 2 - 1 / Real.sqrt 2 : ℝ) = 1 / Real.sqrt 2 := by
      ring
    rw [e3, div_self (ne_of_gt (by positivity : (0:ℝ) < 1 / Real.sqrt 2))]
    exact Real.arctan_one
  have hpt : ((tth_corr_sample_layer detA detA.pixel_coords 1 0 0 2
      false).headI).1 = -(Real.pi / 4) := by
    simp [tth_corr_sample_layer, detA, cart_to_angles_pt, detectorXYToGvec,
      ct_identity_3x3, ct_zeros_3, matVec, dotV, addV, subV, smulV, unitV,
      normV, negV, crossV]
    norm_num [Real.sqrt_one]
    have e1 : (-(-1 / Real.sqrt 2) : ℝ) = 1 / Real.sqrt 2 := by ring
    have e2 : (-(2 * (-1 / Real.sqrt 2)) : ℝ) = 2 / Real.sqrt 2 := by ring
    rw [e1, e2, cos_arccos_inv_sqrt2, sin_arccos_inv_sqrt2]
    have e3 : (2 / Real.sqrt 2 - 1 / Real.sqrt 2 : ℝ) = 1 / Real.sqrt 2 := by
      ring
    rw [e3, div_self (ne_of_gt (by positivity : (0:ℝ) < 1 / Real.sqrt 2)),
      Real.arctan_one]
  rw [hmap, hpt]
  have hpi := Real.pi_pos
  intro heq
  linarith

set_option maxHeartbeats 1000000 in
/-- Counterexample input for C2: at the single on-axis pixel (0, 0) of the
concrete instrument instrB with pinhole_thickness 0 and pinhole_radius 1,
the pinhole map field holds arccos(1/sqrt 2) while the first column of the
pinhole point evaluator with return_nominal=false at the same pixel center
holds -arccos(1/sqrt 2): the map stores pin_tth - nom_tth, the point
evaluator stores its negation. -/
theorem C2_counterexample :
    (tth_corr_map_pinhole instrB 0 1).headI.2.headI
      ≠ ((tth_corr_pinhole detB detB.pixel_coords 0 1 false).headI).1 := by
  have hmap : (tth_corr_map_pinhole instrB 0 1).headI.2.headI
      = Real.arccos (1 / Real.sqrt 2) := by
    simp [tth_corr_map_pinhole, instrB, detB, Detector.pixel_angles,
      cart_to_angles_pt, detectorXYToGvec, ct_identity_3x3, ct_zeros_3,
      ct_beam_vec, atan2, matVec, dotV, addV, subV, smulV, unitV, normV,
      negV, crossV]
    norm_num [Real.sqrt_one, Real.arccos_one]
    simp [neg_div, one_div]
  have hpt : ((tth_corr_pinhole detB detB.pixel_coords 0 1 false).headI).1
      = -Real.arccos (1 / Real.sqrt 2) := by
    simp [tth_corr_pinhole, detB, cart_to_angles_pt, detectorXYToGvec,
      ct_identity_3x3, ct_zeros_3, ct_beam_vec, atan2, matVec, dotV, addV,
      subV, smulV, unitV, normV, negV, crossV]
    norm_num [Real.sqrt_one, Real.arccos_one]
    simp [neg_div, one_div]
  rw [hmap, hpt]
  have hpos := arccos_inv_sqrt_two_pos
  intro heq
  linarith

end Phutil
